import Mathlib

/-!
Verification development for the cleanlab examples repository.

The repository consists of three tutorial notebooks:
  * find_tabular_errors/find_tabular_errors.ipynb (tabular XGBoost pipeline),
  * datalab_image_classification/train_image_classifier.ipynb (Swin transformer
    trained with stratified K-fold cross-validation),
  * an unnamed notebook (transformer_sklearn) wrapping a Keras Bert model for
    scikit-learn and CleanLearning.

The development embeds, directly from the notebook sources:
  1. a statement-level model of each notebook (which calls occur, in order,
     with which inputs, outputs and side effects),
  2. the tabular notebook data flow (column selection, label encoding,
     train/test split, row dropping, accuracy computation), with the external
     learners (XGBoost fit/predict, cross_val_predict, find_label_issues,
     the split permutation) as explicit function parameters,
  3. the stratified K-fold split and the scatter-write loops that fill the
     pred_probs array in the image notebook (the split is a pure function of
     the per-class shuffled index lists, which stand for the seeded shuffle
     of StratifiedKFold with random_state 42),
  4. the image preprocessing helper convert_to_rgb.
-/

namespace CleanlabExamples

/-! ## Part 1: statement-level model of the three notebooks -/

/-- Kinds of accuracy values a notebook prints. The image notebook prints
per-epoch validation accuracy inside its training loop; the other notebooks
print a baseline accuracy and one or more post-cleaning accuracies. -/
inductive AccKind
  | baseline
  | postClean
  | postStudio
  | foldValidation
  deriving DecidableEq, Repr

/-- In-memory arrays a detector call can consume, as named in the notebooks. -/
inductive ArrRef
  | givenLabels
  | predProbs
  | trainFeatures
  deriving DecidableEq, Repr

/-- Shape of the value returned by a label-issue detector call. -/
inductive DetectOut
  | rankedIndices (score : String)
  | perExampleTable
  deriving DecidableEq, Repr

/-- Statement-level abstraction of the notebook cells: each constructor stands
for one library call or output action appearing in a notebook, in source
order. Loop bodies are flattened in order. -/
inductive Stmt
  | readCsv (url : String)
  | downloadFile (url : String)
  | extractArchive (dest : String)
  | loadImageFolder (dir : String)
  | labelEncode (col : String)
  | trainTestSplit (seed : Nat)
  | fitClassifier (arch : String)
  | predictClassifier
  | crossValPredictProba (arch : String)
  | kfoldFitLoop (nFolds seed : Nat)
  | kfoldPredictLoop (nFolds seed : Nat)
  | detectLabelIssues (fn : String) (args : List ArrRef) (out : DetectOut)
  | cleanLearningFit (nFolds : Nat)
  | dropFlaggedRows
  | argsortColumn (col : String)
  | printAccuracy (k : AccKind)
  | printText (desc : String)
  | displayTable (desc : String)
  | saveNumpyArray (path : String)
  | saveTorchCheckpoint (path : String)
  | tokenizeText
  | gridSearchFit
  | tryExcept
  | raiseStmt
  | defExceptionClass (name : String)
  deriving DecidableEq, Repr

open Stmt

/-- Statement model of find_tabular_errors.ipynb, in cell order. -/
def findTabularErrorsNb : List Stmt :=
  [ readCsv "https://s.cleanlab.ai/student-grades-demo.csv",
    labelEncode "letter_grade",
    labelEncode "noisy_letter_grade",
    labelEncode "notes",
    trainTestSplit 0,
    fitClassifier "XGBClassifier",
    predictClassifier,
    printAccuracy .baseline,
    crossValPredictProba "XGBClassifier",
    detectLabelIssues "find_label_issues" [.givenLabels, .predProbs]
      (.rankedIndices "self_confidence"),
    displayTable "issues_df.head",
    printText "percentage_of_errors_found",
    dropFlaggedRows,
    fitClassifier "XGBClassifier",
    predictClassifier,
    printAccuracy .baseline,
    printAccuracy .postClean,
    printText "reduction_in_error",
    readCsv "https://s.cleanlab.ai/student-grades-demo-studio-export.csv",
    labelEncode "cleanlab_suggested_label",
    labelEncode "notes",
    fitClassifier "XGBClassifier",
    predictClassifier,
    printAccuracy .baseline,
    printAccuracy .postClean,
    printAccuracy .postStudio,
    printText "reductions_in_error" ]

/-- Statement model of train_image_classifier.ipynb, in cell order. The
training loop prints per-epoch validation accuracy and saves per-fold model
checkpoints; the prediction loop fills pred_probs and features arrays which
are then written to .npy files. -/
def trainImageClassifierNb : List Stmt :=
  [ downloadFile "https://cleanlab-public.s3.amazonaws.com/Datalab/caltech256-subset.tar.gz",
    extractArchive "data/",
    loadImageFolder "./data/caltech256-subset",
    kfoldFitLoop 5 42,
    printAccuracy .foldValidation,
    saveTorchCheckpoint "caltech256_subset_swin_base_patch4_window7_224_fold",
    kfoldPredictLoop 5 42,
    saveNumpyArray "./data/features.npy",
    saveNumpyArray "./data/pred_probs.npy" ]

/-- Statement model of the unnamed transformer_sklearn notebook, in cell
order. CleanLearning.fit trains the wrapped Keras model while internally
identifying and removing label issues; get_label_issues later retrieves the
per-example issue table, which the notebook ranks itself via argsort. -/
def transformerSklearnNb : List Stmt :=
  [ readCsv "https://s.cleanlab.ai/amazon_reviews/train.csv",
    readCsv "https://s.cleanlab.ai/amazon_reviews/test.csv",
    tokenizeText,
    gridSearchFit,
    fitClassifier "KerasWrapperModel",
    predictClassifier,
    printAccuracy .baseline,
    cleanLearningFit 3,
    predictClassifier,
    printAccuracy .postClean,
    detectLabelIssues "get_label_issues" [] .perExampleTable,
    displayTable "label_issues",
    argsortColumn "label_quality",
    printText "top_10_issue_indices" ]

/-- All three notebooks of the repository. -/
def allNotebooks : List (List Stmt) :=
  [findTabularErrorsNb, trainImageClassifierNb, transformerSklearnNb]

/-- Stage 1 of the pipeline: the statement loads a dataset. -/
def loadsDataset : Stmt → Bool
  | readCsv _ => true
  | loadImageFolder _ => true
  | _ => false

/-- Stage 2 of the pipeline: the statement trains or fine-tunes a model. -/
def trainsModel : Stmt → Bool
  | fitClassifier _ => true
  | kfoldFitLoop _ _ => true
  | gridSearchFit => true
  | cleanLearningFit _ => true
  | _ => false

/-- Stage 3 of the pipeline: the statement calls a library function that
flags or relabels suspect examples. -/
def flagsSuspects : Stmt → Bool
  | detectLabelIssues _ _ _ => true
  | cleanLearningFit _ => true
  | _ => false

/-- The statement prints a baseline accuracy. -/
def printsBaselineAcc : Stmt → Bool
  | printAccuracy .baseline => true
  | _ => false

/-- The statement prints a post-cleaning accuracy. -/
def printsCleanedAcc : Stmt → Bool
  | printAccuracy .postClean => true
  | printAccuracy .postStudio => true
  | _ => false

/-- Stage 4 of the pipeline: the notebook prints both a baseline accuracy and
a post-cleaning accuracy (a before/after comparison). -/
def printsBeforeAfterAcc (nb : List Stmt) : Bool :=
  nb.any printsBaselineAcc && nb.any printsCleanedAcc

/-- The notebook contains all four pipeline stages. -/
def hasAllFourStages (nb : List Stmt) : Bool :=
  nb.any loadsDataset && nb.any trainsModel && nb.any flagsSuspects &&
    printsBeforeAfterAcc nb

/-- The statement writes an artifact to disk in a persistence format. -/
def writesArtifact : Stmt → Bool
  | saveNumpyArray _ => true
  | saveTorchCheckpoint _ => true
  | _ => false

/-- The statement is local error handling: a try/except block, a raise, or a
custom exception class definition. -/
def isErrorHandling : Stmt → Bool
  | tryExcept => true
  | raiseStmt => true
  | defExceptionClass _ => true
  | _ => false

/-- Detector invocations of a notebook: the label-issue detection library
calls, with the arrays they consume and the shape of their result. -/
def detectorCalls (nb : List Stmt) : List (String × List ArrRef × DetectOut) :=
  nb.filterMap fun s => match s with
    | detectLabelIssues fn args out => some (fn, args, out)
    | _ => none

/-! ## Part 2: data flow of the tabular notebook

The student-grades CSV has columns stud_ID, exam_1, exam_2, exam_3, notes,
letter_grade (ground truth) and noisy_letter_grade. The notebook label-encodes
the three categorical columns, splits train/test with random_state 0, trains a
baseline XGBClassifier on the noisy labels, obtains out-of-sample predicted
probabilities with cross_val_predict, calls find_label_issues, drops the
flagged rows and retrains, and finally retrains on the Cleanlab Studio export.
External library calls (the split permutation, XGBoost fit and predict,
cross_val_predict, find_label_issues) are explicit function parameters. -/

/-- Row of the raw student-grades CSV (the df_c copy kept by the notebook). -/
structure RawRow where
  sid : String
  exam1 : Int
  exam2 : Int
  exam3 : Int
  note : String
  letter : String
  noisy : String
  deriving DecidableEq, Repr, Inhabited

/-- Row of the dataframe after the three LabelEncoder fit_transform calls. -/
structure EncRow where
  sid : String
  exam1 : Int
  exam2 : Int
  exam3 : Int
  note : Nat
  letter : Nat
  noisy : Nat
  deriving DecidableEq, Repr, Inhabited

/-- Feature row after dropping stud_ID, letter_grade and noisy_letter_grade. -/
structure FeatRow where
  exam1 : Int
  exam2 : Int
  exam3 : Int
  note : Nat
  deriving DecidableEq, Repr, Inhabited

/-- Hyperparameters the notebook passes to every XGBClassifier constructor. -/
structure XGBParams where
  treeMethod : String
  enableCategorical : Bool
  deriving DecidableEq, Repr

/-- Parameters used by every XGBClassifier in the notebook:
tree_method hist, enable_categorical true. -/
def xgbNotebookParams : XGBParams :=
  { treeMethod := "hist", enableCategorical := true }

/-- Model of sklearn LabelEncoder fit_transform: classes_ is the sorted list
of distinct values, each value is mapped to its class index. -/
def labelEncodeCol (xs : List String) : List Nat :=
  let classes := List.insertionSort (fun a b => a ≤ b) xs.dedup
  xs.map (fun x => List.indexOf x classes)

/-- Columnwise label encoding of the raw dataframe, as in the notebook:
letter_grade, noisy_letter_grade and notes each get their own encoder. -/
def encodeDF (raw : List RawRow) : List EncRow :=
  let letterCodes := labelEncodeCol (raw.map (fun r => r.letter))
  let noisyCodes := labelEncodeCol (raw.map (fun r => r.noisy))
  let noteCodes := labelEncodeCol (raw.map (fun r => r.note))
  (List.range raw.length).map (fun i =>
    { sid := (raw.getD i default).sid, exam1 := (raw.getD i default).exam1,
      exam2 := (raw.getD i default).exam2, exam3 := (raw.getD i default).exam3,
      note := noteCodes.getD i 0, letter := letterCodes.getD i 0,
      noisy := noisyCodes.getD i 0 })

/-- Positional row selection (df.iloc over an index list). -/
def selectRows {α : Type} [Inhabited α] (df : List α) (idx : List Nat) : List α :=
  idx.map (fun i => df.getD i default)

/-- Column drop producing the model features (drops stud_ID, letter_grade,
noisy_letter_grade). -/
def toFeat (r : EncRow) : FeatRow :=
  { exam1 := r.exam1, exam2 := r.exam2, exam3 := r.exam3, note := r.note }

/-- Model of pandas df.drop(idx): after reset_index the row labels are the
positions, so the rows whose position appears in idx are removed, keeping the
remaining rows in order. -/
def dropRows {α : Type} (df : List α) (idx : List Nat) : List α :=
  (df.enum.filter (fun p => !(idx.contains p.1))).map Prod.snd

/-- Model of sklearn accuracy_score: fraction of positions where the
prediction equals the reference label. -/
def accuracyScore (preds labels : List Nat) : Rat :=
  (((preds.zip labels).countP (fun p => p.1 == p.2) : Int) : Rat)
    / ((labels.length : Int) : Rat)

/-- Positions of the training rows whose encoded letter_grade differs from
the encoded noisy_letter_grade (true_error_idx in the notebook). -/
def trueErrorIdxOf (dfTrain : List EncRow) : List Nat :=
  (List.range dfTrain.length).filter (fun i =>
    !((dfTrain.getD i default).letter == (dfTrain.getD i default).noisy))

/-- Fraction of true label errors that the detector flagged:
the intersection of the two index sets over the true-error set. -/
def errorsFoundFrac (trueIdx issueIdx : List Nat) : Rat :=
  (((trueIdx.dedup.filter (fun i => issueIdx.contains i)).length : Int) : Rat)
    / ((trueIdx.dedup.length : Int) : Rat)

/-- The displayed issue table: the raw rows whose stud_ID was flagged,
ordered by their rank in the flagged-id list (a stable sort on the rank key,
as pandas sort_values with a key does): for each rank position in order, the
rows carrying that rank, in their original order. -/
def issuesTableOf (rawCopy : List RawRow) (ids : List String) : List RawRow :=
  let present := rawCopy.filter (fun r => ids.contains r.sid)
  (List.range ids.length).flatMap
    (fun k => present.filter (fun r => List.indexOf r.sid ids == k))

/-- Features and suggested labels for the Cleanlab Studio retraining step:
the export rows restricted to the training students, with the suggested label
and notes columns label-encoded. -/
structure StudioRow where
  sid : String
  exam1 : Int
  exam2 : Int
  exam3 : Int
  note : String
  suggested : String
  deriving DecidableEq, Repr, Inhabited

/-- Encoding of the filtered Studio export: clean_data holds the exam scores
and encoded notes, clean_labels the encoded suggested labels. -/
def studioFeatures (rows : List StudioRow) : List FeatRow × List Nat :=
  let noteCodes := labelEncodeCol (rows.map (fun r => r.note))
  let sugCodes := labelEncodeCol (rows.map (fun r => r.suggested))
  ((List.range rows.length).map (fun i =>
      { exam1 := (rows.getD i default).exam1, exam2 := (rows.getD i default).exam2,
        exam3 := (rows.getD i default).exam3, note := noteCodes.getD i 0 }),
   sugCodes)

/-- External library calls the tabular notebook makes, as explicit functions.
M is the type of fitted XGBoost models. splitIdx gives the train and test row
positions chosen by train_test_split(random_state 0), a function of the row
count only. -/
structure TabularLib (M : Type) where
  splitIdx : Nat → List Nat × List Nat
  xgbFit : XGBParams → List FeatRow → List Nat → M
  xgbPredict : M → List FeatRow → List Nat
  cvPredictProba : XGBParams → List FeatRow → List Nat → List (List Rat)
  findIssues : List Nat → List (List Rat) → List Nat

/-- Every value the tabular notebook computes and prints or displays. -/
structure TabRun (M : Type) where
  dfTrain : List EncRow
  dfTest : List EncRow
  trainData : List FeatRow
  trainLabels : List Nat
  testData : List FeatRow
  testLabels : List Nat
  baselineParams : XGBParams
  baselineModel : M
  predsOriginal : List Nat
  accOriginal : Rat
  predProbs : List (List Rat)
  issueIdx : List Nat
  issueStudIds : List String
  issuesTable : List RawRow
  trueErrorIdx : List Nat
  errorsFound : Rat
  trainDataCl : List FeatRow
  trainLabelsCl : List Nat
  cleanParams : XGBParams
  cleanModel : M
  predsClean : List Nat
  accClean : Rat
  studioTrainRows : List StudioRow
  studioParams : XGBParams
  studioModel : M
  predsStudio : List Nat
  accStudio : Rat

/-- The whole tabular notebook as a function of the raw CSV rows, the Studio
export rows and the external library calls, following the cells in order. -/
def tabRun {M : Type} (lib : TabularLib M) (raw : List RawRow)
    (studioExport : List StudioRow) : TabRun M :=
  let enc := encodeDF raw
  let split := lib.splitIdx raw.length
  let dfTrain := selectRows enc split.1
  let dfTest := selectRows enc split.2
  let testData := dfTest.map toFeat
  let testLabels := dfTest.map (fun r => r.letter)
  let trainData := dfTrain.map toFeat
  let trainLabels := dfTrain.map (fun r => r.noisy)
  let baselineModel := lib.xgbFit xgbNotebookParams trainData trainLabels
  let predsOriginal := lib.xgbPredict baselineModel testData
  let predProbs := lib.cvPredictProba xgbNotebookParams trainData trainLabels
  let issueIdx := lib.findIssues trainLabels predProbs
  let issueStudIds := issueIdx.map (fun i => (dfTrain.getD i default).sid)
  let trueErrIdx := trueErrorIdxOf dfTrain
  let dfTrainCl := dropRows dfTrain issueIdx
  let trainLabelsCl := dfTrainCl.map (fun r => r.noisy)
  let trainDataCl := dfTrainCl.map toFeat
  let cleanModel := lib.xgbFit xgbNotebookParams trainDataCl trainLabelsCl
  let predsClean := lib.xgbPredict cleanModel testData
  let trainStud := dfTrain.map (fun r => r.sid)
  let studioRows := studioExport.filter (fun r => trainStud.contains r.sid)
  let studioFL := studioFeatures studioRows
  let studioModel := lib.xgbFit xgbNotebookParams studioFL.1 studioFL.2
  let predsStudio := lib.xgbPredict studioModel testData
  { dfTrain := dfTrain, dfTest := dfTest, trainData := trainData,
    trainLabels := trainLabels, testData := testData, testLabels := testLabels,
    baselineParams := xgbNotebookParams, baselineModel := baselineModel,
    predsOriginal := predsOriginal,
    accOriginal := accuracyScore predsOriginal testLabels,
    predProbs := predProbs, issueIdx := issueIdx,
    issueStudIds := issueStudIds,
    issuesTable := issuesTableOf raw issueStudIds,
    trueErrorIdx := trueErrIdx,
    errorsFound := errorsFoundFrac trueErrIdx issueIdx,
    trainDataCl := trainDataCl, trainLabelsCl := trainLabelsCl,
    cleanParams := xgbNotebookParams, cleanModel := cleanModel,
    predsClean := predsClean,
    accClean := accuracyScore predsClean testLabels,
    studioTrainRows := studioRows, studioParams := xgbNotebookParams,
    studioModel := studioModel, predsStudio := predsStudio,
    accStudio := accuracyScore predsStudio testLabels }

/-! ### Characterization of the row drop (pandas df.drop by position) -/

/-- Zip with a consecutive index range, filter on the index, project: the
kept values are looked up at the kept index positions. -/
theorem zip_range_filter_map (q : Nat → Bool) :
    ∀ {α : Type} [Inhabited α] (df : List α) (i : Nat),
      (((List.range' i df.length).zip df).filter (fun p => q p.1)).map Prod.snd
        = ((List.range' i df.length).filter q).map
            (fun j => df.getD (j - i) default) := by
  intro α _ df
  induction df with
  | nil => intro i; simp
  | cons a t ih =>
    intro i
    have hr : List.range' i (a :: t).length = i :: List.range' (i + 1) t.length := by
      simpa using List.range'_succ i t.length 1
    rw [hr, List.zip_cons_cons, List.filter_cons, List.filter_cons]
    by_cases hq : q i
    · rw [if_pos (by simpa using hq), if_pos (by simpa using hq)]
      rw [List.map_cons, List.map_cons, ih (i + 1), Nat.sub_self, List.getD_cons_zero]
      congr 1
      apply List.map_congr_left
      intro j hj
      have hjm : i + 1 ≤ j := (List.mem_range'_1.mp (List.mem_of_mem_filter hj)).1
      have h1 : j - i = (j - (i + 1)) + 1 := by omega
      rw [h1, List.getD_cons_succ]
    · rw [if_neg (by simpa using hq), if_neg (by simpa using hq), ih (i + 1)]
      apply List.map_congr_left
      intro j hj
      have hjm : i + 1 ≤ j := (List.mem_range'_1.mp (List.mem_of_mem_filter hj)).1
      have h1 : j - i = (j - (i + 1)) + 1 := by omega
      rw [h1, List.getD_cons_succ]

/-- dropRows keeps the rows at exactly the positions outside idx, in order. -/
theorem dropRows_eq_kept {α : Type} [Inhabited α] (df : List α) (idx : List Nat) :
    dropRows df idx
      = ((List.range df.length).filter (fun j => !(idx.contains j))).map
          (fun j => df.getD j default) := by
  rw [dropRows, List.enum_eq_zip_range, List.range_eq_range',
    zip_range_filter_map (fun j => !(idx.contains j)) df 0]
  apply List.map_congr_left
  intro j _
  simp

/-- The kept positions of dropRows are exactly the in-range positions that
were not flagged. -/
theorem mem_keptPositions (n : Nat) (idx : List Nat) (j : Nat) :
    j ∈ (List.range n).filter (fun j => !(idx.contains j))
      ↔ j < n ∧ j ∉ idx := by
  simp [List.mem_filter, List.mem_range]

/-- Dropping a duplicate-free in-range index list removes exactly that many
rows. -/
theorem dropRows_length {α : Type} [Inhabited α] (df : List α) (idx : List Nat)
    (hnd : idx.Nodup) (hlt : ∀ i ∈ idx, i < df.length) :
    (dropRows df idx).length = df.length - idx.length := by
  rw [dropRows_eq_kept, List.length_map]
  have hperm : List.Perm ((List.range df.length).filter (fun j => idx.contains j)) idx := by
    rw [List.perm_ext_iff_of_nodup ((List.nodup_range _).filter _) hnd]
    intro a
    simp only [List.mem_filter, List.mem_range]
    constructor
    · rintro ⟨_, h⟩
      simpa using h
    · intro h
      exact ⟨hlt a h, by simpa using h⟩
  have hsplit := List.length_eq_countP_add_countP
    (fun j => idx.contains j) (List.range df.length)
  rw [List.length_range] at hsplit
  rw [List.countP_eq_length_filter, List.countP_eq_length_filter] at hsplit
  rw [hperm.length_eq] at hsplit
  have : (List.filter (fun j => !(idx.contains j)) (List.range df.length)).length
      = (List.filter (fun j => decide ¬(idx.contains j) = true) (List.range df.length)).length := by
    congr 1
    apply List.filter_congr
    intro a _
    cases h : idx.contains a <;> simp [h]
  omega

/-! ### Invariance machinery for runs differing only in letter_grade -/

/-- The two raw rows agree on every column except letter_grade. -/
def RawRow.EqExceptLetter (r s : RawRow) : Prop :=
  r.sid = s.sid ∧ r.exam1 = s.exam1 ∧ r.exam2 = s.exam2 ∧ r.exam3 = s.exam3 ∧
    r.note = s.note ∧ r.noisy = s.noisy

instance (r s : RawRow) : Decidable (r.EqExceptLetter s) := by
  unfold RawRow.EqExceptLetter
  infer_instance

/-- The two encoded rows agree on every column except the encoded
letter_grade. -/
def EncRow.EqExceptLetter (r s : EncRow) : Prop :=
  r.sid = s.sid ∧ r.exam1 = s.exam1 ∧ r.exam2 = s.exam2 ∧ r.exam3 = s.exam3 ∧
    r.note = s.note ∧ r.noisy = s.noisy

instance (r s : EncRow) : Decidable (r.EqExceptLetter s) := by
  unfold EncRow.EqExceptLetter
  infer_instance

/-- A map invariant under a rowwise relation yields equal columns. -/
theorem forall2_map_eq {α β : Type} {R : α → α → Prop} {f : α → β}
    (hf : ∀ a b, R a b → f a = f b) :
    ∀ {l₁ l₂ : List α}, List.Forall₂ R l₁ l₂ → l₁.map f = l₂.map f := by
  intro l₁ l₂ h
  induction h with
  | nil => rfl
  | cons hab _ ih => simp [hf _ _ hab, ih]

/-- Two maps over the same index list are pointwise related. -/
theorem forall2_map_same {ι β : Type} {l : List ι} {f g : ι → β}
    {R : β → β → Prop} (h : ∀ i ∈ l, R (f i) (g i)) :
    List.Forall₂ R (l.map f) (l.map g) := by
  induction l with
  | nil => constructor
  | cons a t ih =>
    exact List.Forall₂.cons (h a (by simp))
      (ih (fun i hi => h i (by simp [hi])))

/-- Relatedness of lists transfers to positional lookups with related
defaults. -/
theorem forall2_getD {α : Type} {R : α → α → Prop} {l₁ l₂ : List α}
    (h : List.Forall₂ R l₁ l₂) (d₁ d₂ : α) (hd : R d₁ d₂) (i : Nat) :
    R (l₁.getD i d₁) (l₂.getD i d₂) := by
  induction h generalizing i with
  | nil => simpa using hd
  | cons hab _ ih =>
    cases i with
    | zero => simpa using hab
    | succ j => simpa using ih j

/-- Filters whose predicates agree across the relation preserve
relatedness. -/
theorem forall2_filter_congr {α : Type} {R : α → α → Prop} {p q : α → Bool}
    (hpq : ∀ a b, R a b → p a = q b) :
    ∀ {l₁ l₂ : List α}, List.Forall₂ R l₁ l₂ →
      List.Forall₂ R (l₁.filter p) (l₂.filter q) := by
  intro l₁ l₂ h
  induction h with
  | nil => constructor
  | cons hab htl ih =>
    rename_i a b t₁ t₂
    by_cases hp : p a
    · have hq : q b = true := (hpq a b hab) ▸ hp
      simpa [List.filter_cons, hp, hq] using List.Forall₂.cons hab ih
    · have hq : q b = false := by
        rw [← hpq a b hab]
        exact Bool.of_not_eq_true hp
      simpa [List.filter_cons, hp, hq] using ih

/-- Appending preserves pointwise relatedness. -/
theorem forall2_append {α : Type} {R : α → α → Prop}
    {l₁ l₂ u₁ u₂ : List α} (h : List.Forall₂ R l₁ l₂)
    (h₂ : List.Forall₂ R u₁ u₂) : List.Forall₂ R (l₁ ++ u₁) (l₂ ++ u₂) := by
  induction h with
  | nil => simpa using h₂
  | cons hab _ ih => exact List.Forall₂.cons hab ih

/-- flatMap over the same index list with pointwise related blocks is
related. -/
theorem forall2_flatMap_same {ι α : Type} {l : List ι} {f g : ι → List α}
    {R : α → α → Prop} (h : ∀ i ∈ l, List.Forall₂ R (f i) (g i)) :
    List.Forall₂ R (l.flatMap f) (l.flatMap g) := by
  induction l with
  | nil => constructor
  | cons a t ih =>
    simp only [List.flatMap_cons]
    exact forall2_append (h a (by simp)) (ih (fun i hi => h i (by simp [hi])))

/-- Default rows are related to themselves. -/
theorem rawDefault_rel : RawRow.EqExceptLetter default default :=
  ⟨rfl, rfl, rfl, rfl, rfl, rfl⟩

/-- Default encoded rows are related to themselves. -/
theorem encDefault_rel : EncRow.EqExceptLetter default default :=
  ⟨rfl, rfl, rfl, rfl, rfl, rfl⟩

/-- Feature extraction ignores the letter column. -/
theorem toFeat_eq_of {r s : EncRow} (h : r.EqExceptLetter s) :
    toFeat r = toFeat s := by
  obtain ⟨_, h1, h2, h3, h4, _⟩ := h
  simp [toFeat, h1, h2, h3, h4]

/-- Label encoding the letter-independent columns gives the same codes for
raws that differ only in letter_grade, and the encoded dataframes are rowwise
related except in the encoded letter column. -/
theorem encodeDF_eqExceptLetter {raw raw' : List RawRow}
    (h : List.Forall₂ RawRow.EqExceptLetter raw raw') :
    List.Forall₂ EncRow.EqExceptLetter (encodeDF raw) (encodeDF raw') := by
  have hlen : raw.length = raw'.length := h.length_eq
  have hnote : raw.map (fun r => r.note) = raw'.map (fun r => r.note) :=
    forall2_map_eq (fun a b hab => hab.2.2.2.2.1) h
  have hnoisy : raw.map (fun r => r.noisy) = raw'.map (fun r => r.noisy) :=
    forall2_map_eq (fun a b hab => hab.2.2.2.2.2) h
  unfold encodeDF
  rw [← hlen, hnote, hnoisy]
  apply forall2_map_same
  intro i _
  have hrow := forall2_getD h default default rawDefault_rel i
  exact ⟨hrow.1, hrow.2.1, hrow.2.2.1, hrow.2.2.2.1, rfl, rfl⟩

/-- Row selection at the same positions preserves the rowwise relation. -/
theorem selectRows_eqExceptLetter {df df' : List EncRow} (idx : List Nat)
    (h : List.Forall₂ EncRow.EqExceptLetter df df') :
    List.Forall₂ EncRow.EqExceptLetter (selectRows df idx) (selectRows df' idx) := by
  apply forall2_map_same
  intro i _
  exact forall2_getD h default default encDefault_rel i

/-- Core invariance of the tabular notebook: for two raw dataframes that
agree on every column except letter_grade, every trained model, every
prediction, the out-of-sample predicted probabilities and the flagged index
set are identical; the displayed issue table is rowwise identical except
possibly in its letter_grade column. -/
theorem tabRun_letter_invariance {M : Type} (lib : TabularLib M)
    (studioExport : List StudioRow) {raw raw' : List RawRow}
    (h : List.Forall₂ RawRow.EqExceptLetter raw raw') :
    (tabRun lib raw studioExport).trainData
        = (tabRun lib raw' studioExport).trainData ∧
    (tabRun lib raw studioExport).trainLabels
        = (tabRun lib raw' studioExport).trainLabels ∧
    (tabRun lib raw studioExport).testData
        = (tabRun lib raw' studioExport).testData ∧
    (tabRun lib raw studioExport).baselineModel
        = (tabRun lib raw' studioExport).baselineModel ∧
    (tabRun lib raw studioExport).predsOriginal
        = (tabRun lib raw' studioExport).predsOriginal ∧
    (tabRun lib raw studioExport).predProbs
        = (tabRun lib raw' studioExport).predProbs ∧
    (tabRun lib raw studioExport).issueIdx
        = (tabRun lib raw' studioExport).issueIdx ∧
    (tabRun lib raw studioExport).issueStudIds
        = (tabRun lib raw' studioExport).issueStudIds ∧
    (tabRun lib raw studioExport).trainDataCl
        = (tabRun lib raw' studioExport).trainDataCl ∧
    (tabRun lib raw studioExport).trainLabelsCl
        = (tabRun lib raw' studioExport).trainLabelsCl ∧
    (tabRun lib raw studioExport).cleanModel
        = (tabRun lib raw' studioExport).cleanModel ∧
    (tabRun lib raw studioExport).predsClean
        = (tabRun lib raw' studioExport).predsClean ∧
    (tabRun lib raw studioExport).studioTrainRows
        = (tabRun lib raw' studioExport).studioTrainRows ∧
    (tabRun lib raw studioExport).studioModel
        = (tabRun lib raw' studioExport).studioModel ∧
    (tabRun lib raw studioExport).predsStudio
        = (tabRun lib raw' studioExport).predsStudio ∧
    List.Forall₂ RawRow.EqExceptLetter
      (tabRun lib raw studioExport).issuesTable
      (tabRun lib raw' studioExport).issuesTable := by
  have hlen : raw.length = raw'.length := h.length_eq
  have henc := encodeDF_eqExceptLetter h
  simp only [tabRun, ← hlen]
  have hdfTrain := selectRows_eqExceptLetter (lib.splitIdx raw.length).1 henc
  have hdfTest := selectRows_eqExceptLetter (lib.splitIdx raw.length).2 henc
  have htrainData :
      (selectRows (encodeDF raw) (lib.splitIdx raw.length).1).map toFeat
        = (selectRows (encodeDF raw') (lib.splitIdx raw.length).1).map toFeat :=
    forall2_map_eq (fun a b hab => toFeat_eq_of hab) hdfTrain
  have htrainLabels :
      (selectRows (encodeDF raw) (lib.splitIdx raw.length).1).map (fun r => r.noisy)
        = (selectRows (encodeDF raw') (lib.splitIdx raw.length).1).map (fun r => r.noisy) :=
    forall2_map_eq (fun a b hab => hab.2.2.2.2.2) hdfTrain
  have htestData :
      (selectRows (encodeDF raw) (lib.splitIdx raw.length).2).map toFeat
        = (selectRows (encodeDF raw') (lib.splitIdx raw.length).2).map toFeat :=
    forall2_map_eq (fun a b hab => toFeat_eq_of hab) hdfTest
  have htrainSid :
      (selectRows (encodeDF raw) (lib.splitIdx raw.length).1).map (fun r => r.sid)
        = (selectRows (encodeDF raw') (lib.splitIdx raw.length).1).map (fun r => r.sid) :=
    forall2_map_eq (fun a b hab => hab.1) hdfTrain
  have hsidAt : ∀ i : Nat,
      ((selectRows (encodeDF raw) (lib.splitIdx raw.length).1).getD i default).sid
        = ((selectRows (encodeDF raw') (lib.splitIdx raw.length).1).getD i default).sid :=
    fun i => (forall2_getD hdfTrain default default encDefault_rel i).1
  have hissueIds :
      (lib.findIssues
          ((selectRows (encodeDF raw) (lib.splitIdx raw.length).1).map (fun r => r.noisy))
          (lib.cvPredictProba xgbNotebookParams
            ((selectRows (encodeDF raw) (lib.splitIdx raw.length).1).map toFeat)
            ((selectRows (encodeDF raw) (lib.splitIdx raw.length).1).map (fun r => r.noisy)))).map
        (fun i => ((selectRows (encodeDF raw) (lib.splitIdx raw.length).1).getD i default).sid)
      = (lib.findIssues
          ((selectRows (encodeDF raw') (lib.splitIdx raw.length).1).map (fun r => r.noisy))
          (lib.cvPredictProba xgbNotebookParams
            ((selectRows (encodeDF raw') (lib.splitIdx raw.length).1).map toFeat)
            ((selectRows (encodeDF raw') (lib.splitIdx raw.length).1).map (fun r => r.noisy)))).map
        (fun i => ((selectRows (encodeDF raw') (lib.splitIdx raw.length).1).getD i default).sid) := by
    rw [← htrainData, ← htrainLabels]
    exact List.map_congr_left (fun i _ => hsidAt i)
  have hdropRel :
      List.Forall₂ EncRow.EqExceptLetter
        (dropRows (selectRows (encodeDF raw) (lib.splitIdx raw.length).1)
          (lib.findIssues
            ((selectRows (encodeDF raw) (lib.splitIdx raw.length).1).map (fun r => r.noisy))
            (lib.cvPredictProba xgbNotebookParams
              ((selectRows (encodeDF raw) (lib.splitIdx raw.length).1).map toFeat)
              ((selectRows (encodeDF raw) (lib.splitIdx raw.length).1).map (fun r => r.noisy)))))
        (dropRows (selectRows (encodeDF raw') (lib.splitIdx raw.length).1)
          (lib.findIssues
            ((selectRows (encodeDF raw') (lib.splitIdx raw.length).1).map (fun r => r.noisy))
            (lib.cvPredictProba xgbNotebookParams
              ((selectRows (encodeDF raw') (lib.splitIdx raw.length).1).map toFeat)
              ((selectRows (encodeDF raw') (lib.splitIdx raw.length).1).map (fun r => r.noisy))))) := by
    rw [← htrainData, ← htrainLabels]
    rw [dropRows_eq_kept, dropRows_eq_kept, hdfTrain.length_eq]
    apply forall2_map_same
    intro j _
    exact forall2_getD hdfTrain default default encDefault_rel j
  have hissuesTable :
      List.Forall₂ RawRow.EqExceptLetter
        (issuesTableOf raw
          ((lib.findIssues
            ((selectRows (encodeDF raw) (lib.splitIdx raw.length).1).map (fun r => r.noisy))
            (lib.cvPredictProba xgbNotebookParams
              ((selectRows (encodeDF raw) (lib.splitIdx raw.length).1).map toFeat)
              ((selectRows (encodeDF raw) (lib.splitIdx raw.length).1).map (fun r => r.noisy)))).map
            (fun i => ((selectRows (encodeDF raw) (lib.splitIdx raw.length).1).getD i default).sid)))
        (issuesTableOf raw'
          ((lib.findIssues
            ((selectRows (encodeDF raw') (lib.splitIdx raw.length).1).map (fun r => r.noisy))
            (lib.cvPredictProba xgbNotebookParams
              ((selectRows (encodeDF raw') (lib.splitIdx raw.length).1).map toFeat)
              ((selectRows (encodeDF raw') (lib.splitIdx raw.length).1).map (fun r => r.noisy)))).map
            (fun i => ((selectRows (encodeDF raw') (lib.splitIdx raw.length).1).getD i default).sid))) := by
    rw [← hissueIds]
    unfold issuesTableOf
    apply forall2_flatMap_same
    intro k _
    apply forall2_filter_congr (fun a b hab => by rw [hab.1])
    exact forall2_filter_congr (fun a b hab => by rw [hab.1]) h
  have hstudioRows :
      studioExport.filter (fun r =>
          (((selectRows (encodeDF raw) (lib.splitIdx raw.length).1).map
            (fun r => r.sid)).contains r.sid))
        = studioExport.filter (fun r =>
          (((selectRows (encodeDF raw') (lib.splitIdx raw.length).1).map
            (fun r => r.sid)).contains r.sid)) := by
    rw [htrainSid]
  have htrainDataCl :
      (dropRows (selectRows (encodeDF raw) (lib.splitIdx raw.length).1)
          (lib.findIssues
            ((selectRows (encodeDF raw) (lib.splitIdx raw.length).1).map (fun r => r.noisy))
            (lib.cvPredictProba xgbNotebookParams
              ((selectRows (encodeDF raw) (lib.splitIdx raw.length).1).map toFeat)
              ((selectRows (encodeDF raw) (lib.splitIdx raw.length).1).map (fun r => r.noisy))))).map toFeat
        = (dropRows (selectRows (encodeDF raw') (lib.splitIdx raw.length).1)
          (lib.findIssues
            ((selectRows (encodeDF raw') (lib.splitIdx raw.length).1).map (fun r => r.noisy))
            (lib.cvPredictProba xgbNotebookParams
              ((selectRows (encodeDF raw') (lib.splitIdx raw.length).1).map toFeat)
              ((selectRows (encodeDF raw') (lib.splitIdx raw.length).1).map (fun r => r.noisy))))).map toFeat :=
    forall2_map_eq (fun a b hab => toFeat_eq_of hab) hdropRel
  have htrainLabelsCl :
      (dropRows (selectRows (encodeDF raw) (lib.splitIdx raw.length).1)
          (lib.findIssues
            ((selectRows (encodeDF raw) (lib.splitIdx raw.length).1).map (fun r => r.noisy))
            (lib.cvPredictProba xgbNotebookParams
              ((selectRows (encodeDF raw) (lib.splitIdx raw.length).1).map toFeat)
              ((selectRows (encodeDF raw) (lib.splitIdx raw.length).1).map (fun r => r.noisy))))).map
          (fun r => r.noisy)
        = (dropRows (selectRows (encodeDF raw') (lib.splitIdx raw.length).1)
          (lib.findIssues
            ((selectRows (encodeDF raw') (lib.splitIdx raw.length).1).map (fun r => r.noisy))
            (lib.cvPredictProba xgbNotebookParams
              ((selectRows (encodeDF raw') (lib.splitIdx raw.length).1).map toFeat)
              ((selectRows (encodeDF raw') (lib.splitIdx raw.length).1).map (fun r => r.noisy))))).map
          (fun r => r.noisy) :=
    forall2_map_eq (fun a b hab => hab.2.2.2.2.2) hdropRel
  refine ⟨htrainData, htrainLabels, htestData, ?_, ?_, ?_, ?_, hissueIds, ?_, ?_, ?_, ?_,
    hstudioRows, ?_, ?_, hissuesTable⟩
  · rw [htrainData, htrainLabels]
  · rw [htrainData, htrainLabels, htestData]
  · rw [htrainData, htrainLabels]
  · rw [htrainData, htrainLabels]
  · exact htrainDataCl
  · exact htrainLabelsCl
  · rw [htrainDataCl, htrainLabelsCl]
  · rw [htrainDataCl, htrainLabelsCl, htestData]
  · rw [hstudioRows]
  · rw [hstudioRows, htestData]

/-! ## Part 3: stratified K-fold split and out-of-sample prediction loops

The image notebook creates StratifiedKFold(n_splits 5, shuffle true,
random_state 42) and calls kf.split(dataset, labels) twice: once in the
training loop and once in the prediction loop. With a fixed random_state the
split is a pure function of its inputs. We model it over the per-class index
lists (in the shuffled order the seeded shuffle produces): each class list is
cut into k chunks whose sizes differ by at most one, and test fold f is the
concatenation of every class's chunk number f; the matching training set is
the complement. The prediction loop initializes pred_probs with np.zeros and
writes the fold model's rows at that fold's held-out indices. The same
machinery models cross_val_predict in the tabular notebook (there with the
unshuffled per-class lists). -/

/-- Sizes of the k chunks a class of m members is cut into: each chunk gets
m / k members and the first m % k chunks one extra. -/
def chunkSizes (m k : Nat) : List Nat :=
  (List.range k).map (fun f => m / k + if f < m % k then 1 else 0)

/-- Cut a list into consecutive chunks of the given sizes. -/
def takeChunks {α : Type} : List Nat → List α → List (List α)
  | [], _ => []
  | s :: ss, l => l.take s :: takeChunks ss (l.drop s)

/-- The k chunks of one class's (shuffled) member list. -/
def classChunks (k : Nat) (cls : List Nat) : List (List Nat) :=
  takeChunks (chunkSizes cls.length k) cls

/-- Test fold f: the concatenation of chunk f of every class. -/
def testFold (k : Nat) (classes : List (List Nat)) (f : Nat) : List Nat :=
  classes.flatMap (fun c => (classChunks k c).getD f [])

/-- All k test folds of the stratified split. -/
def stratTestFolds (k : Nat) (classes : List (List Nat)) : List (List Nat) :=
  (List.range k).map (testFold k classes)

/-- Training set of fold f: every index outside the fold's test set. -/
def trainFold (k : Nat) (classes : List (List Nat)) (f : Nat) : List Nat :=
  classes.flatten.filter (fun i => !((testFold k classes f).contains i))

/-- The kf.split call of the training loop (notebook cell 10). -/
def kfSplitTrainingCall (k : Nat) (classes : List (List Nat)) : List (List Nat) :=
  stratTestFolds k classes

/-- The kf.split call of the prediction loop (notebook cell 12). -/
def kfSplitPredictionCall (k : Nat) (classes : List (List Nat)) : List (List Nat) :=
  stratTestFolds k classes

/-- The fold whose test set holds index i. -/
def foldOf (k : Nat) (classes : List (List Nat)) (i : Nat) : Nat :=
  List.findIdx (fun f => (testFold k classes f).contains i) (List.range k)

/-- One iteration of the prediction loop: write the fold model's row
pr f i into the array at every index i of the fold's test set
(pred_probs[test_idx] = ... in the notebook). -/
def writeFold {ρ : Type} (pr : Nat → Nat → ρ) (f : Nat) (arr : List ρ)
    (fold : List Nat) : List ρ :=
  fold.foldl (fun a i => a.set i (pr f i)) arr

/-- Run the prediction loop over the folds, numbering them from f₀. -/
def scatterFrom {ρ : Type} (pr : Nat → Nat → ρ) : Nat → List ρ → List (List Nat) → List ρ
  | _, arr, [] => arr
  | f, arr, fold :: rest => scatterFrom pr (f + 1) (writeFold pr f arr fold) rest

/-- The whole prediction loop of the image notebook, starting at fold 0. -/
def scatterWrite {ρ : Type} (pr : Nat → Nat → ρ) (arr : List ρ)
    (folds : List (List Nat)) : List ρ :=
  scatterFrom pr 0 arr folds

/-- Out-of-sample prediction array: start from zeros, and for each fold write
the rows of the model fitted on that fold's training set at the fold's test
indices. This is the shape of both the image-notebook prediction loop and of
cross_val_predict in the tabular notebook. -/
def oosPredProbs {μ ρ : Type} (fit : List Nat → μ) (infer : μ → Nat → ρ)
    (z : ρ) (n k : Nat) (classes : List (List Nat)) : List ρ :=
  scatterWrite (fun f i => infer (fit (trainFold k classes f)) i)
    (List.replicate n z) (kfSplitPredictionCall k classes)

/-! ### Lemmas: the test folds partition the index set -/

/-- An indicator sum counts the satisfying elements. -/
theorem sum_indicator (r : Nat) (l : List Nat) :
    (l.map (fun f => if f < r then 1 else 0)).sum
      = l.countP (fun f => decide (f < r)) := by
  induction l with
  | nil => simp
  | cons a t ih =>
    by_cases h : a < r <;> simp [List.countP_cons, h, ih] <;> omega

/-- Counting the elements below r in range k. -/
theorem countP_lt_range (k r : Nat) :
    (List.range k).countP (fun f => decide (f < r)) = min r k := by
  induction k with
  | zero => simp
  | succ k ih =>
    rw [List.range_succ, List.countP_append, ih]
    by_cases h : k < r <;> simp [List.countP_cons, h] <;> omega

/-- The chunk sizes of a class add up to the class size. -/
theorem chunkSizes_sum (m k : Nat) (hk : 0 < k) : (chunkSizes m k).sum = m := by
  unfold chunkSizes
  have h1 : ∀ l : List Nat,
      (l.map (fun f => m / k + if f < m % k then 1 else 0)).sum
        = l.length * (m / k) + (l.map (fun f => if f < m % k then 1 else 0)).sum := by
    intro l
    induction l with
    | nil => simp
    | cons a t ih => simp [ih]; ring
  rw [h1, sum_indicator, countP_lt_range, List.length_range]
  have h3 : m % k < k := Nat.mod_lt _ hk
  have h4 : min (m % k) k = m % k := by omega
  rw [h4]
  exact Nat.div_add_mod m k

/-- There are as many chunks as sizes. -/
theorem takeChunks_length {α : Type} :
    ∀ (ss : List Nat) (l : List α), (takeChunks ss l).length = ss.length := by
  intro ss
  induction ss with
  | nil => intro l; rfl
  | cons s t ih => intro l; simp [takeChunks, ih]

/-- Concatenating the chunks gives back the front of the list. -/
theorem takeChunks_flatten {α : Type} :
    ∀ (ss : List Nat) (l : List α), (takeChunks ss l).flatten = l.take ss.sum := by
  intro ss
  induction ss with
  | nil => intro l; simp [takeChunks]
  | cons s t ih =>
    intro l
    rw [takeChunks, List.flatten_cons, ih, List.sum_cons, List.take_add]

/-- A class has exactly k chunks. -/
theorem classChunks_length (k : Nat) (cls : List Nat) :
    (classChunks k cls).length = k := by
  rw [classChunks, takeChunks_length]
  simp [chunkSizes]

/-- The chunks of a class concatenate back to the class. -/
theorem classChunks_flatten (k : Nat) (cls : List Nat) (hk : 0 < k) :
    (classChunks k cls).flatten = cls := by
  rw [classChunks, takeChunks_flatten, chunkSizes_sum _ _ hk, List.take_length]

/-- Looking up every position of a list of lists in order and concatenating
restores the flattening. -/
theorem flatMap_range_getD {α : Type} :
    ∀ L : List (List α),
      (List.range L.length).flatMap (fun f => L.getD f []) = L.flatten := by
  intro L
  induction L with
  | nil => simp
  | cons c T ih =>
    rw [List.length_cons, List.range_succ_eq_map, List.flatMap_cons,
      List.flatMap_map, List.flatten_cons, ← ih]
    simp [List.getD_cons_succ]

/-- flatMap with pointwise equal blocks is equal. -/
theorem flatMap_congr_fun {α β : Type} {l : List α} {f g : α → List β}
    (h : ∀ a ∈ l, f a = g a) : l.flatMap f = l.flatMap g := by
  rw [List.flatMap_def, List.flatMap_def, List.map_congr_left h]

/-- Interchanging the two binds of a double flatMap permutes the result. -/
theorem flatMap_comm_perm {α β γ : Type} (l₁ : List α) (l₂ : List β)
    (g : α → β → List γ) :
    List.Perm (l₁.flatMap fun a => l₂.flatMap fun b => g a b)
      (l₂.flatMap fun b => l₁.flatMap fun a => g a b) := by
  rw [← Multiset.coe_eq_coe]
  calc ((l₁.flatMap fun a => l₂.flatMap fun b => g a b : List γ) : Multiset γ)
      = (l₁ : Multiset α).bind
          (fun a => ((l₂.flatMap fun b => g a b : List γ) : Multiset γ)) :=
        (Multiset.coe_bind _ _).symm
    _ = (l₁ : Multiset α).bind
          (fun a => (l₂ : Multiset β).bind fun b => (g a b : Multiset γ)) := by
        congr 1
        funext a
        exact (Multiset.coe_bind _ _).symm
    _ = (l₂ : Multiset β).bind
          (fun b => (l₁ : Multiset α).bind fun a => (g a b : Multiset γ)) :=
        Multiset.bind_bind _ _
    _ = (l₂ : Multiset β).bind
          (fun b => ((l₁.flatMap fun a => g a b : List γ) : Multiset γ)) := by
        congr 1
        funext b
        exact Multiset.coe_bind _ _
    _ = _ := Multiset.coe_bind _ _

/-- The concatenation of the test folds is a permutation of the
concatenation of the classes: every index is distributed into the folds with
its multiplicity preserved. -/
theorem stratTestFolds_flatten_perm (k : Nat) (classes : List (List Nat))
    (hk : 0 < k) :
    List.Perm (stratTestFolds k classes).flatten classes.flatten := by
  have h1 : (stratTestFolds k classes).flatten
      = (List.range k).flatMap
          (fun f => classes.flatMap (fun c => (classChunks k c).getD f [])) := by
    rw [stratTestFolds, ← List.flatMap_def]
    rfl
  rw [h1]
  refine (flatMap_comm_perm _ _ _).trans ?_
  have h2 : (classes.flatMap fun c =>
      (List.range k).flatMap fun f => (classChunks k c).getD f [])
        = classes.flatMap (fun c => c) := by
    apply flatMap_congr_fun
    intro c _
    have h := flatMap_range_getD (classChunks k c)
    rw [classChunks_length] at h
    rw [h, classChunks_flatten _ _ hk]
  rw [h2]
  have h3 : classes.flatMap (fun c => c) = classes.flatten := by
    rw [← List.flatMap_id classes]
    rfl
  rw [h3]

/-- Lookup of a test fold inside the fold list. -/
theorem stratTestFolds_getD (k : Nat) (classes : List (List Nat)) (f : Nat)
    (hf : f < k) :
    (stratTestFolds k classes).getD f [] = testFold k classes f := by
  have hlen : f < (stratTestFolds k classes).length := by
    simpa [stratTestFolds] using hf
  rw [List.getD_eq_getElem _ _ hlen]
  simp [stratTestFolds]

/-- The fold list has k entries. -/
theorem stratTestFolds_length (k : Nat) (classes : List (List Nat)) :
    (stratTestFolds k classes).length = k := by
  simp [stratTestFolds]

/-- In a Nat list summing to one, a unique position holds the single unit. -/
theorem sum_eq_one_unique :
    ∀ l : List Nat, l.sum = 1 →
      ∃ j, j < l.length ∧ l.getD j 0 = 1 ∧
        ∀ g, g < l.length → g ≠ j → l.getD g 0 = 0 := by
  intro l
  induction l with
  | nil => intro h; simp at h
  | cons a t ih =>
    intro h
    rw [List.sum_cons] at h
    by_cases ha : a = 0
    · obtain ⟨j, hj, h1, h0⟩ := ih (by omega)
      refine ⟨j + 1, by simpa using Nat.succ_lt_succ hj, by simpa using h1, ?_⟩
      intro g hg hne
      cases g with
      | zero => simpa using ha
      | succ g' =>
        rw [List.getD_cons_succ]
        exact h0 g' (by simpa using hg) (by omega)
    · have ha1 : a = 1 := by omega
      have ht : t.sum = 0 := by omega
      have hz := List.sum_eq_zero_iff.mp ht
      refine ⟨0, by simp, by simpa using ha1, ?_⟩
      intro g hg hne
      cases g with
      | zero => exact absurd rfl hne
      | succ g' =>
        rw [List.getD_cons_succ]
        by_cases hg' : g' < t.length
        · exact hz _ (List.getD_eq_getElem t 0 hg' ▸ List.getElem_mem hg')
        · exact List.getD_eq_default _ _ (by omega)

/-- Under distinct indices, every index of the dataset lies in exactly one
test fold. -/
theorem fold_unique (k : Nat) (classes : List (List Nat)) (hk : 0 < k)
    (hnd : classes.flatten.Nodup) (i : Nat) (hi : i ∈ classes.flatten) :
    ∃ f, f < k ∧ i ∈ testFold k classes f ∧
      ∀ g, g < k → g ≠ f → i ∉ testFold k classes g := by
  have hcnt : ((stratTestFolds k classes).map (List.count i)).sum = 1 := by
    rw [← List.count_flatten,
      (stratTestFolds_flatten_perm k classes hk).count_eq,
      List.count_eq_one_of_mem hnd hi]
  obtain ⟨j, hj, h1, h0⟩ := sum_eq_one_unique _ hcnt
  rw [List.length_map, stratTestFolds_length] at hj
  have hgetD : ∀ g, g < k →
      ((stratTestFolds k classes).map (List.count i)).getD g 0
        = (testFold k classes g).count i := by
    intro g hg
    have hg' : g < ((stratTestFolds k classes).map (List.count i)).length := by
      simpa [stratTestFolds] using hg
    rw [List.getD_eq_getElem _ _ hg', List.getElem_map]
    congr 1
    have hg'' : g < (stratTestFolds k classes).length := by
      simpa [stratTestFolds] using hg
    rw [← List.getD_eq_getElem _ ([] : List Nat) hg'', stratTestFolds_getD _ _ _ hg]
  refine ⟨j, hj, ?_, ?_⟩
  · rw [hgetD j hj] at h1
    exact List.count_pos_iff.mp (by omega)
  · intro g hg hne
    have := h0 g (by simpa [stratTestFolds] using hg) hne
    rw [hgetD g hg] at this
    intro hmem
    have hpos : 0 < (testFold k classes g).count i := List.count_pos_iff.mpr hmem
    omega

/-! ### Lemmas: the prediction loop writes every row exactly once -/

/-- Setting another position does not change a lookup. -/
theorem getD_set_ne {ρ : Type} {l : List ρ} {i j : Nat} (h : i ≠ j) (v d : ρ) :
    (l.set i v).getD j d = l.getD j d := by
  rw [List.getD_eq_getElem?_getD, List.getD_eq_getElem?_getD,
    List.getElem?_set_ne h]

/-- Setting an in-range position makes the lookup return the new value. -/
theorem getD_set_self {ρ : Type} {l : List ρ} {i : Nat} (h : i < l.length)
    (v d : ρ) : (l.set i v).getD i d = v := by
  rw [List.getD_eq_getElem?_getD, List.getElem?_set_self h]
  rfl

/-- Writing a fold keeps the array length. -/
theorem writeFold_length {ρ : Type} (pr : Nat → Nat → ρ) (f : Nat) :
    ∀ (fold : List Nat) (arr : List ρ),
      (writeFold pr f arr fold).length = arr.length := by
  intro fold
  induction fold with
  | nil => intro arr; rfl
  | cons j rest ih =>
    intro arr
    rw [writeFold, List.foldl_cons, ← writeFold, ih, List.length_set]

/-- Writing a fold leaves positions outside it untouched. -/
theorem writeFold_getD_not_mem {ρ : Type} (pr : Nat → Nat → ρ) (f : Nat)
    (d : ρ) : ∀ (fold : List Nat) (arr : List ρ) (i : Nat), i ∉ fold →
      (writeFold pr f arr fold).getD i d = arr.getD i d := by
  intro fold
  induction fold with
  | nil => intro arr i _; rfl
  | cons j rest ih =>
    intro arr i hi
    rw [writeFold, List.foldl_cons, ← writeFold,
      ih _ _ (fun h => hi (List.mem_cons_of_mem _ h)),
      getD_set_ne (fun h => hi (List.mem_cons.mpr (Or.inl h.symm))) _ _]

/-- Writing a fold stores the fold model's row at every in-range index of
the fold (duplicates inside the fold write the same value). -/
theorem writeFold_getD_mem {ρ : Type} (pr : Nat → Nat → ρ) (f : Nat)
    (d : ρ) : ∀ (fold : List Nat) (arr : List ρ) (i : Nat), i ∈ fold →
      i < arr.length → (writeFold pr f arr fold).getD i d = pr f i := by
  intro fold
  induction fold with
  | nil => intro arr i hi; cases hi
  | cons j rest ih =>
    intro arr i hi hlen
    rw [writeFold, List.foldl_cons, ← writeFold]
    by_cases hr : i ∈ rest
    · exact ih _ _ hr (by rw [List.length_set]; exact hlen)
    · have hij : i = j := by
        rcases List.mem_cons.mp hi with h | h
        · exact h
        · exact absurd h hr
      subst hij
      rw [writeFold_getD_not_mem pr f d rest _ i hr, getD_set_self hlen]

/-- The loop does not touch an index outside every remaining fold. -/
theorem scatterFrom_getD_not_mem {ρ : Type} (pr : Nat → Nat → ρ) (d : ρ) :
    ∀ (folds : List (List Nat)) (f₀ : Nat) (arr : List ρ) (i : Nat),
      (∀ t ∈ folds, i ∉ t) →
      (scatterFrom pr f₀ arr folds).getD i d = arr.getD i d := by
  intro folds
  induction folds with
  | nil => intro f₀ arr i _; rfl
  | cons fold rest ih =>
    intro f₀ arr i hi
    rw [scatterFrom, ih _ _ _ (fun t ht => hi t (List.mem_cons_of_mem _ ht)),
      writeFold_getD_not_mem pr f₀ d fold arr i (hi fold (List.mem_cons_self _ _))]

/-- If index i lies in fold number f and in no other fold, the loop leaves
the row of fold f's model at position i. -/
theorem scatterFrom_getD {ρ : Type} (pr : Nat → Nat → ρ) (d : ρ) :
    ∀ (folds : List (List Nat)) (f₀ : Nat) (arr : List ρ) (i f : Nat),
      i < arr.length → f < folds.length → i ∈ folds.getD f [] →
      (∀ g, g < folds.length → g ≠ f → i ∉ folds.getD g []) →
      (scatterFrom pr f₀ arr folds).getD i d = pr (f₀ + f) i := by
  intro folds
  induction folds with
  | nil =>
    intro f₀ arr i f _ hf
    simp at hf
  | cons fold rest ih =>
    intro f₀ arr i f hlen hf hin huniq
    cases f with
    | zero =>
      have hrest : ∀ t ∈ rest, i ∉ t := by
        intro t ht
        obtain ⟨g, hg, rfl⟩ := List.mem_iff_getElem.mp ht
        have h := huniq (g + 1) (by simpa using Nat.succ_lt_succ hg) (by omega)
        rw [List.getD_cons_succ, List.getD_eq_getElem _ _ hg] at h
        exact h
      rw [scatterFrom, scatterFrom_getD_not_mem pr d rest _ _ _ hrest,
        writeFold_getD_mem pr f₀ d fold arr i (by simpa using hin) hlen,
        Nat.add_zero]
    | succ g =>
      have hnotin : i ∉ fold := by
        have h := huniq 0 (by simp) (by omega)
        simpa using h
      have hlen' : i < (writeFold pr f₀ arr fold).length := by
        rw [writeFold_length]
        exact hlen
      rw [scatterFrom, ih (f₀ + 1) _ i g hlen' (by simpa using hf)
        (by simpa [List.getD_cons_succ] using hin) ?_]
      · congr 1
        omega
      · intro g' hg' hne
        have h := huniq (g' + 1) (by simpa using Nat.succ_lt_succ hg') (by omega)
        simpa [List.getD_cons_succ] using h

/-- foldOf computes the unique fold whose test set holds index i. -/
theorem foldOf_spec (k : Nat) (classes : List (List Nat)) (hk : 0 < k)
    (hnd : classes.flatten.Nodup) (i : Nat) (hi : i ∈ classes.flatten) :
    foldOf k classes i < k ∧ i ∈ testFold k classes (foldOf k classes i) ∧
      ∀ g, g < k → g ≠ foldOf k classes i → i ∉ testFold k classes g := by
  obtain ⟨f, hf, hmem, huniq⟩ := fold_unique k classes hk hnd i hi
  have hex : ∃ x ∈ List.range k, ((testFold k classes x).contains i) = true :=
    ⟨f, List.mem_range.mpr hf, List.elem_iff.mpr hmem⟩
  have hlt : foldOf k classes i < k := by
    have h := List.findIdx_lt_length_of_exists hex
    simpa [foldOf] using h
  have hw : List.findIdx (fun f => (testFold k classes f).contains i)
      (List.range k) < (List.range k).length := by
    rw [List.length_range]
    exact hlt
  have hgm : i ∈ testFold k classes (foldOf k classes i) := by
    have h := @List.findIdx_getElem _
      (fun f => (testFold k classes f).contains i) (List.range k) hw
    rw [List.getElem_range] at h
    exact List.elem_iff.mp h
  have hfeq : foldOf k classes i = f := by
    by_contra hne
    exact huniq _ hlt hne hgm
  refine ⟨hlt, hgm, ?_⟩
  rw [hfeq]
  exact huniq

/-! ## Part 4: the image preprocessing helper convert_to_rgb -/

/-- A PIL image: its mode string and an abstract pixel payload. -/
structure PILImage where
  mode : String
  payload : Nat
  deriving DecidableEq, Repr

/-- PIL Image.convert: returns a copy of the image in the requested mode. -/
def PILImage.convert (img : PILImage) (m : String) : PILImage :=
  { img with mode := m }

/-- The helper from train_image_classifier.ipynb: if img.mode equals L the
image is converted to RGB, otherwise it is returned unchanged. -/
def convert_to_rgb (img : PILImage) : PILImage :=
  if img.mode = "L" then img.convert "RGB" else img

/-! ## Concrete fixtures used by witnesses and counterexamples -/

/-- A concrete instantiation of the external tabular library calls: the
split keeps rows 0 and 1 for training and 2 and 3 for testing, models are
trivial, and the detector always flags training row 0. -/
def libC : TabularLib Unit :=
  { splitIdx := fun _ => ([0, 1], [2, 3]),
    xgbFit := fun _ _ _ => (),
    xgbPredict := fun _ fs => fs.map (fun _ => 0),
    cvPredictProba := fun _ _ ls => ls.map (fun _ => [1]),
    findIssues := fun _ _ => [0] }

/-- A four-row student-grades dataframe. -/
def rawA : List RawRow :=
  [ { sid := "s0", exam1 := 90, exam2 := 90, exam3 := 90, note := "ok",
      letter := "A", noisy := "F" },
    { sid := "s1", exam1 := 50, exam2 := 50, exam3 := 50, note := "ok",
      letter := "F", noisy := "F" },
    { sid := "s2", exam1 := 80, exam2 := 80, exam3 := 80, note := "ok",
      letter := "B", noisy := "B" },
    { sid := "s3", exam1 := 70, exam2 := 70, exam3 := 70, note := "ok",
      letter := "C", noisy := "C" } ]

/-- The same dataframe with only the first letter_grade value changed. -/
def rawB : List RawRow :=
  [ { sid := "s0", exam1 := 90, exam2 := 90, exam3 := 90, note := "ok",
      letter := "B", noisy := "F" },
    { sid := "s1", exam1 := 50, exam2 := 50, exam3 := 50, note := "ok",
      letter := "F", noisy := "F" },
    { sid := "s2", exam1 := 80, exam2 := 80, exam3 := 80, note := "ok",
      letter := "B", noisy := "B" },
    { sid := "s3", exam1 := 70, exam2 := 70, exam3 := 70, note := "ok",
      letter := "C", noisy := "C" } ]

/-- An empty Studio export fixture. -/
def studioC : List StudioRow := []

/-- Detector argument check: the call consumes exactly the given labels and
the predicted probabilities. -/
def consumesLabelsAndProbs (args : List ArrRef) : Bool :=
  args == [ArrRef.givenLabels, ArrRef.predProbs] ||
    args == [ArrRef.predProbs, ArrRef.givenLabels]

/-- Detector result check: the call returns a ranked index set. -/
def returnsRankedIndices : DetectOut → Bool
  | .rankedIndices _ => true
  | .perExampleTable => false

/-! ## Claim theorems -/

/-- C1: every predicted probability stored in the pred_probs array (and
hence passed to the label-issue detector) is out of sample: the stored row
for index i comes from the fold model fitted on a training set that excludes
i. oosPredProbs is the common shape of the image-notebook prediction loop
(per-fold checkpoints applied to the held-out indices) and of
cross_val_predict in the tabular notebook. -/
theorem claim_C1_out_of_sample {μ ρ : Type} (fit : List Nat → μ)
    (infer : μ → Nat → ρ) (z : ρ) (n k : Nat) (classes : List (List Nat))
    (hk : 0 < k) (hnd : classes.flatten.Nodup)
    (hsub : ∀ i ∈ classes.flatten, i < n)
    (hcov : ∀ i, i < n → i ∈ classes.flatten) :
    ∀ i, i < n →
      i ∈ testFold k classes (foldOf k classes i) ∧
      i ∉ trainFold k classes (foldOf k classes i) ∧
      (oosPredProbs fit infer z n k classes).getD i z
        = infer (fit (trainFold k classes (foldOf k classes i))) i := by
  intro i hin
  have hi := hcov i hin
  obtain ⟨hlt, hmem, huniq⟩ := foldOf_spec k classes hk hnd i hi
  have hnotrain : i ∉ trainFold k classes (foldOf k classes i) := by
    intro h
    have hc := (List.mem_filter.mp h).2
    have ht : (testFold k classes (foldOf k classes i)).contains i = true :=
      List.elem_iff.mpr hmem
    rw [ht] at hc
    simp at hc
  refine ⟨hmem, hnotrain, ?_⟩
  rw [oosPredProbs, scatterWrite, kfSplitPredictionCall,
    scatterFrom_getD _ _ (stratTestFolds k classes) 0 (List.replicate n z) i
      (foldOf k classes i)
      (by rw [List.length_replicate]; exact hin)
      (by rw [stratTestFolds_length]; exact hlt)
      (by rw [stratTestFolds_getD _ _ _ hlt]; exact hmem)
      ?uni, Nat.zero_add]
  case uni =>
    intro g hg hne
    rw [stratTestFolds_length] at hg
    rw [stratTestFolds_getD _ _ _ hg]
    exact huniq g hg hne

/-- Witness for C1 on a concrete dataset of four examples, two classes and
two folds: row 1 is predicted by the model fitted without index 1. -/
theorem claim_C1_witness :
    1 ∈ testFold 2 [[0, 2], [1, 3]] (foldOf 2 [[0, 2], [1, 3]] 1) ∧
    1 ∉ trainFold 2 [[0, 2], [1, 3]] (foldOf 2 [[0, 2], [1, 3]] 1) ∧
    (oosPredProbs (fun tr => tr) (fun m i => (m, i)) (([] : List Nat), 0) 4 2
        [[0, 2], [1, 3]]).getD 1 (([] : List Nat), 0)
      = (trainFold 2 [[0, 2], [1, 3]] (foldOf 2 [[0, 2], [1, 3]] 1), 1) :=
  claim_C1_out_of_sample (fun tr => tr) (fun m i => (m, i)) (([] : List Nat), 0)
    4 2 [[0, 2], [1, 3]] (by decide) (by decide) (by decide) (by decide) 1
    (by decide)

/-- C2 counterexample: the image notebook is one of the three notebooks and
does not contain all four pipeline stages (it has no flag/relabel call and
prints no before/after accuracy pair). -/
theorem claim_C2_counterexample :
    trainImageClassifierNb ∈ allNotebooks ∧
    hasAllFourStages trainImageClassifierNb = false := by
  constructor
  · simp [allNotebooks]
  · decide

/-- C2 amended: the tabular and transformer notebooks contain all four
stages; the image notebook loads a dataset and trains with cross-validation,
but calls no flag/relabel function and prints no before/after accuracy. -/
theorem claim_C2_amended :
    hasAllFourStages findTabularErrorsNb = true ∧
    hasAllFourStages transformerSklearnNb = true ∧
    trainImageClassifierNb.any loadsDataset = true ∧
    trainImageClassifierNb.any trainsModel = true ∧
    trainImageClassifierNb.any flagsSuspects = false ∧
    printsBeforeAfterAcc trainImageClassifierNb = false := by
  decide

/-- C3 counterexample: not every detector invocation consumes exactly the
labels and predicted probabilities and returns ranked indices: the
transformer notebook's get_label_issues call takes no array argument and
returns a per-example table. -/
theorem claim_C3_counterexample :
    (allNotebooks.all (fun nb => (detectorCalls nb).all
      (fun c => consumesLabelsAndProbs c.2.1 && returnsRankedIndices c.2.2)))
      = false := by
  decide

/-- C3 amended: the tabular notebook's single detector call consumes exactly
the given labels and predicted probabilities and returns indices ranked by
self_confidence; the image notebook has no detector call; the transformer
notebook's get_label_issues takes no array input and returns a per-example
table, which the notebook ranks itself with an argsort on label_quality. -/
theorem claim_C3_amended :
    detectorCalls findTabularErrorsNb
      = [("find_label_issues", [ArrRef.givenLabels, ArrRef.predProbs],
          DetectOut.rankedIndices "self_confidence")] ∧
    detectorCalls trainImageClassifierNb = [] ∧
    detectorCalls transformerSklearnNb
      = [("get_label_issues", [], DetectOut.perExampleTable)] ∧
    argsortColumn "label_quality" ∈ transformerSklearnNb := by
  decide

/-- C4: the retrain stage drops exactly the flagged rows from the training
frame (kept positions are exactly the unflagged in-range positions, and for
a duplicate-free in-range flag list exactly that many rows disappear),
refits an XGBClassifier with identical hyperparameters, and the baseline,
cleaned and Studio evaluations all score predictions against the same
unchanged test features and ground-truth test labels. -/
theorem claim_C4_retrain_same_model_same_test {M : Type} (lib : TabularLib M)
    (raw : List RawRow) (studioExport : List StudioRow)
    (hnd : (tabRun lib raw studioExport).issueIdx.Nodup)
    (hlt : ∀ i ∈ (tabRun lib raw studioExport).issueIdx,
      i < (tabRun lib raw studioExport).dfTrain.length) :
    (tabRun lib raw studioExport).trainDataCl
        = ((List.range (tabRun lib raw studioExport).dfTrain.length).filter
            (fun j => !((tabRun lib raw studioExport).issueIdx.contains j))).map
            (fun j => toFeat ((tabRun lib raw studioExport).dfTrain.getD j default)) ∧
    (∀ j, (j ∈ (List.range (tabRun lib raw studioExport).dfTrain.length).filter
          (fun j => !((tabRun lib raw studioExport).issueIdx.contains j)))
        ↔ j < (tabRun lib raw studioExport).dfTrain.length
            ∧ j ∉ (tabRun lib raw studioExport).issueIdx) ∧
    (tabRun lib raw studioExport).trainDataCl.length
        = (tabRun lib raw studioExport).dfTrain.length
            - (tabRun lib raw studioExport).issueIdx.length ∧
    (tabRun lib raw studioExport).cleanParams
        = (tabRun lib raw studioExport).baselineParams ∧
    (tabRun lib raw studioExport).studioParams
        = (tabRun lib raw studioExport).baselineParams ∧
    (tabRun lib raw studioExport).predsOriginal
        = lib.xgbPredict (tabRun lib raw studioExport).baselineModel
            (tabRun lib raw studioExport).testData ∧
    (tabRun lib raw studioExport).predsClean
        = lib.xgbPredict (tabRun lib raw studioExport).cleanModel
            (tabRun lib raw studioExport).testData ∧
    (tabRun lib raw studioExport).predsStudio
        = lib.xgbPredict (tabRun lib raw studioExport).studioModel
            (tabRun lib raw studioExport).testData ∧
    (tabRun lib raw studioExport).accOriginal
        = accuracyScore (tabRun lib raw studioExport).predsOriginal
            (tabRun lib raw studioExport).testLabels ∧
    (tabRun lib raw studioExport).accClean
        = accuracyScore (tabRun lib raw studioExport).predsClean
            (tabRun lib raw studioExport).testLabels ∧
    (tabRun lib raw studioExport).accStudio
        = accuracyScore (tabRun lib raw studioExport).predsStudio
            (tabRun lib raw studioExport).testLabels := by
  simp only [tabRun] at hnd hlt ⊢
  refine ⟨?_, fun j => mem_keptPositions _ _ j, ?_, trivial, trivial, trivial,
    trivial, trivial, trivial, trivial, trivial⟩
  · rw [dropRows_eq_kept, List.map_map]
    rfl
  · rw [List.length_map, dropRows_length _ _ hnd hlt]

/-- Witness for C4 on the concrete fixture: one flagged row disappears from
the two-row training frame. -/
theorem claim_C4_witness :
    (tabRun libC rawA studioC).trainDataCl.length
      = (tabRun libC rawA studioC).dfTrain.length
          - (tabRun libC rawA studioC).issueIdx.length :=
  (claim_C4_retrain_same_model_same_test libC rawA studioC (by decide)
    (by decide)).2.2.1

/-- C5 counterexample: it is false that no notebook writes an artifact to a
persistence format: the image notebook saves model checkpoints and the
features and pred_probs arrays. -/
theorem claim_C5_counterexample :
    (allNotebooks.all (fun nb => nb.all (fun s => !(writesArtifact s))))
      = false := by
  decide

/-- C5 amended: the tabular and transformer notebooks write nothing to disk
and only print; the image notebook's file writes are exactly the per-fold
model checkpoints and the saved features.npy and pred_probs.npy arrays. -/
theorem claim_C5_amended :
    findTabularErrorsNb.all (fun s => !(writesArtifact s)) = true ∧
    transformerSklearnNb.all (fun s => !(writesArtifact s)) = true ∧
    trainImageClassifierNb.filter writesArtifact
      = [Stmt.saveTorchCheckpoint
          "caltech256_subset_swin_base_patch4_window7_224_fold",
         Stmt.saveNumpyArray "./data/features.npy",
         Stmt.saveNumpyArray "./data/pred_probs.npy"] := by
  decide

/-- C7: no notebook contains any local error handling: no try/except block,
no raise statement and no custom exception class occurs in any of the three
statement lists, so library failures propagate unchanged. -/
theorem claim_C7_no_error_handling :
    (allNotebooks.all (fun nb => nb.all (fun s => !(isErrorHandling s))))
      = true := by
  decide

/-- C8: the two kf.split calls of the image notebook give identical fold
partitions (the split is a pure function of its inputs once the seed fixes
the shuffle), the test folds are pairwise disjoint, cover every dataset
index and stay in range; hence the prediction loop writes every pred_probs
row exactly once: the saved row of index i is the fold model's row for i,
never the residual zeros initialization. -/
theorem claim_C8_folds_partition {ρ : Type} (pr : Nat → Nat → ρ) (z : ρ)
    (n k : Nat) (classes : List (List Nat)) (hk : 0 < k)
    (hnd : classes.flatten.Nodup) (hsub : ∀ i ∈ classes.flatten, i < n)
    (hcov : ∀ i, i < n → i ∈ classes.flatten) (hz : ∀ f j, pr f j ≠ z) :
    kfSplitTrainingCall k classes = kfSplitPredictionCall k classes ∧
    (∀ f g, f < k → g < k → f ≠ g →
      ∀ i, i ∈ testFold k classes f → i ∉ testFold k classes g) ∧
    (∀ i, i < n → foldOf k classes i < k ∧
      i ∈ testFold k classes (foldOf k classes i)) ∧
    (∀ f, f < k → ∀ i, i ∈ testFold k classes f → i < n) ∧
    (∀ i, i < n →
      (scatterWrite pr (List.replicate n z)
          (kfSplitPredictionCall k classes)).getD i z
        = pr (foldOf k classes i) i ∧
      (scatterWrite pr (List.replicate n z)
          (kfSplitPredictionCall k classes)).getD i z ≠ z) := by
  have hsubfold : ∀ f, f < k → ∀ i, i ∈ testFold k classes f →
      i ∈ classes.flatten := by
    intro f hf i hi
    have hmem : i ∈ (stratTestFolds k classes).flatten :=
      List.mem_flatten.mpr ⟨testFold k classes f,
        List.mem_map.mpr ⟨f, List.mem_range.mpr hf, rfl⟩, hi⟩
    exact (stratTestFolds_flatten_perm k classes hk).mem_iff.mp hmem
  refine ⟨rfl, ?_, ?_, ?_, ?_⟩
  · intro f g hf hg hfg i hif hig
    obtain ⟨f₀, hf₀, hm₀, hu⟩ :=
      fold_unique k classes hk hnd i (hsubfold f hf i hif)
    by_cases h1 : f = f₀
    · by_cases h2 : g = f₀
      · exact hfg (h1.trans h2.symm)
      · exact hu g hg h2 hig
    · exact hu f hf h1 hif
  · intro i hin
    obtain ⟨hlt, hmem, _⟩ := foldOf_spec k classes hk hnd i (hcov i hin)
    exact ⟨hlt, hmem⟩
  · intro f hf i hi
    exact hsub i (hsubfold f hf i hi)
  · intro i hin
    obtain ⟨hlt, hmem, huniq⟩ := foldOf_spec k classes hk hnd i (hcov i hin)
    have heq : (scatterWrite pr (List.replicate n z)
        (kfSplitPredictionCall k classes)).getD i z = pr (foldOf k classes i) i := by
      rw [scatterWrite, kfSplitPredictionCall,
        scatterFrom_getD _ _ (stratTestFolds k classes) 0 (List.replicate n z) i
          (foldOf k classes i)
          (by rw [List.length_replicate]; exact hin)
          (by rw [stratTestFolds_length]; exact hlt)
          (by rw [stratTestFolds_getD _ _ _ hlt]; exact hmem)
          ?uni, Nat.zero_add]
      case uni =>
        intro g hg hne
        rw [stratTestFolds_length] at hg
        rw [stratTestFolds_getD _ _ _ hg]
        exact huniq g hg hne
    refine ⟨heq, ?_⟩
    rw [heq]
    exact hz _ _

/-- Witness for C8 on the concrete dataset of four examples: the two split
calls agree and row 3 of the written array holds its fold model's row. -/
theorem claim_C8_witness :
    kfSplitTrainingCall 2 [[0, 2], [1, 3]] = kfSplitPredictionCall 2 [[0, 2], [1, 3]] ∧
    (scatterWrite (fun f i => [f, i]) (List.replicate 4 ([] : List Nat))
        (kfSplitPredictionCall 2 [[0, 2], [1, 3]])).getD 3 []
      = [foldOf 2 [[0, 2], [1, 3]] 3, 3] :=
  ⟨(claim_C8_folds_partition (fun f i => [f, i]) [] 4 2 [[0, 2], [1, 3]]
      (by decide) (by decide) (by decide) (by decide)
      (fun f j => by simp)).1,
   ((claim_C8_folds_partition (fun f i => [f, i]) [] 4 2 [[0, 2], [1, 3]]
      (by decide) (by decide) (by decide) (by decide)
      (fun f j => by simp)).2.2.2.2 3 (by decide)).1⟩

/-- C9 amended: for two runs of the tabular notebook on raw dataframes that
differ only in the letter_grade column, the training features and labels,
the test features, every trained model, every prediction, the out-of-sample
predicted probabilities, the flagged index set and the flagged student ids
are identical; the displayed issue table matches rowwise on every column
except possibly letter_grade (only the evaluation outputs and that letter
column of the table can differ). -/
theorem claim_C9_letter_blind {M : Type} (lib : TabularLib M)
    (studioExport : List StudioRow) {raw raw' : List RawRow}
    (h : List.Forall₂ RawRow.EqExceptLetter raw raw') :
    (tabRun lib raw studioExport).trainData
        = (tabRun lib raw' studioExport).trainData ∧
    (tabRun lib raw studioExport).trainLabels
        = (tabRun lib raw' studioExport).trainLabels ∧
    (tabRun lib raw studioExport).testData
        = (tabRun lib raw' studioExport).testData ∧
    (tabRun lib raw studioExport).baselineModel
        = (tabRun lib raw' studioExport).baselineModel ∧
    (tabRun lib raw studioExport).predsOriginal
        = (tabRun lib raw' studioExport).predsOriginal ∧
    (tabRun lib raw studioExport).predProbs
        = (tabRun lib raw' studioExport).predProbs ∧
    (tabRun lib raw studioExport).issueIdx
        = (tabRun lib raw' studioExport).issueIdx ∧
    (tabRun lib raw studioExport).issueStudIds
        = (tabRun lib raw' studioExport).issueStudIds ∧
    (tabRun lib raw studioExport).trainDataCl
        = (tabRun lib raw' studioExport).trainDataCl ∧
    (tabRun lib raw studioExport).trainLabelsCl
        = (tabRun lib raw' studioExport).trainLabelsCl ∧
    (tabRun lib raw studioExport).cleanModel
        = (tabRun lib raw' studioExport).cleanModel ∧
    (tabRun lib raw studioExport).predsClean
        = (tabRun lib raw' studioExport).predsClean ∧
    (tabRun lib raw studioExport).studioTrainRows
        = (tabRun lib raw' studioExport).studioTrainRows ∧
    (tabRun lib raw studioExport).studioModel
        = (tabRun lib raw' studioExport).studioModel ∧
    (tabRun lib raw studioExport).predsStudio
        = (tabRun lib raw' studioExport).predsStudio ∧
    List.Forall₂ RawRow.EqExceptLetter
      (tabRun lib raw studioExport).issuesTable
      (tabRun lib raw' studioExport).issuesTable :=
  tabRun_letter_invariance lib studioExport h

/-- Witness for C9 on the concrete fixture: the flagged index set and the
cleaned-model predictions agree across the two runs. -/
theorem claim_C9_witness :
    (tabRun libC rawA studioC).issueIdx = (tabRun libC rawB studioC).issueIdx ∧
    (tabRun libC rawA studioC).predsClean
      = (tabRun libC rawB studioC).predsClean :=
  ⟨(claim_C9_letter_blind libC studioC (by decide)).2.2.2.2.2.2.1,
   (claim_C9_letter_blind libC studioC (by decide)).2.2.2.2.2.2.2.2.2.2.2.1⟩

/-- C9 counterexample: the claim as stated is too strong: with the same
flagged index set, the displayed issue table itself differs between the two
runs, because its letter_grade column comes from the raw data. -/
theorem claim_C9_counterexample :
    List.Forall₂ RawRow.EqExceptLetter rawA rawB ∧
    (tabRun libC rawA studioC).issueIdx = (tabRun libC rawB studioC).issueIdx ∧
    (tabRun libC rawA studioC).issuesTable
      ≠ (tabRun libC rawB studioC).issuesTable := by
  decide

/-- C10: convert_to_rgb returns the RGB conversion exactly when the image
mode is L and returns the image unchanged for every other mode. -/
theorem claim_C10_convert_to_rgb (img : PILImage) :
    (img.mode = "L" → convert_to_rgb img = img.convert "RGB") ∧
    (img.mode ≠ "L" → convert_to_rgb img = img) := by
  constructor
  · intro h
    simp [convert_to_rgb, h]
  · intro h
    simp [convert_to_rgb, h]

/-- Witness for C10: an L image is converted, while P and RGBA images pass
through unchanged. -/
theorem claim_C10_witness :
    convert_to_rgb ⟨"L", 7⟩ = PILImage.convert ⟨"L", 7⟩ "RGB" ∧
    convert_to_rgb ⟨"P", 7⟩ = ⟨"P", 7⟩ ∧
    convert_to_rgb ⟨"RGBA", 7⟩ = ⟨"RGBA", 7⟩ :=
  ⟨(claim_C10_convert_to_rgb ⟨"L", 7⟩).1 rfl,
   (claim_C10_convert_to_rgb ⟨"P", 7⟩).2 (by decide),
   (claim_C10_convert_to_rgb ⟨"RGBA", 7⟩).2 (by decide)⟩

end CleanlabExamples
